import Mathlib

/-
Verification of the contact-form backend (main.py): the SMTP notifier
`try_send_email`, the `/api/contact` handler `submit_contact`, and the
`/test` diagnostic handler `test_database`, embedded shallowly.  External
collaborators (the document store from database.py, the SMTP server, the
database handle) are modelled as oracle parameters so that every claim is
settled for every possible behaviour of the collaborator.
-/

/-- Python truthiness of an `os.getenv` result: `None` and the empty string
are falsy, every other string is truthy. -/
def pyTruthy (o : Option String) : Bool :=
  match o with
  | none => false
  | some s => !s.isEmpty

/-- Python `a or b` on an optional string: yields `b` when `a` is `None` or
empty, otherwise the string itself. -/
def pyOrStr (o : Option String) (d : String) : String :=
  match o with
  | none => d
  | some s => if s.isEmpty then d else s

/-- Python slice `s[:n]`: the first `n` characters of `s`. -/
def pyTrunc (s : String) (n : Nat) : String :=
  String.mk (s.toList.take n)

/-- A nonempty run of decimal digits in which underscores may appear only
between two digits, as accepted by Python `int()` after the optional sign. -/
def pyDigitRun : List Char → Bool
  | [] => false
  | [c] => c.isDigit
  | c :: '_' :: rest => c.isDigit && pyDigitRun rest
  | c :: rest => c.isDigit && pyDigitRun rest

/-- Numeric value of a list of decimal digits (underscores already removed). -/
def digitsToNat (l : List Char) : Nat :=
  l.foldl (fun a c => a * 10 + (c.toNat - 48)) 0

/-- Characters of `s` with surrounding whitespace stripped, as Python `int()`
does before parsing. -/
def pyStripChars (s : String) : List Char :=
  ((s.toList.dropWhile Char.isWhitespace).reverse.dropWhile Char.isWhitespace).reverse

/-- Python `int(s)` in base 10: optional surrounding whitespace, an optional
sign, then a digit run; `none` models the `ValueError` raised otherwise. -/
def pyInt (s : String) : Option Int :=
  match pyStripChars s with
  | '+' :: rest =>
      if pyDigitRun rest then some (Int.ofNat (digitsToNat (rest.filter (fun c => c != '_')))) else none
  | '-' :: rest =>
      if pyDigitRun rest then some (-(Int.ofNat (digitsToNat (rest.filter (fun c => c != '_'))))) else none
  | rest =>
      if pyDigitRun rest then some (Int.ofNat (digitsToNat (rest.filter (fun c => c != '_')))) else none

/-- Modelled from the spec: the `Contactmessage` schema (schemas.py is not in
the sources) — name, email, optional subject, and message body. -/
structure Contactmessage where
  name : String
  email : String
  subject : Option String
  message : String
deriving DecidableEq

/-- The process environment: `os.getenv` returns `none` for an unset
variable and the raw string otherwise. -/
def Env : Type := String → Option String

/-- The status dictionary returned by `try_send_email`; each field records
the value of the corresponding dict key when present. -/
structure EmailStatus where
  sent : Option Bool
  reason : Option String
deriving DecidableEq

/-- The `EmailMessage` built by `try_send_email` (subject, From, To, body). -/
structure EmailMessage where
  subject : String
  fromAddr : String
  toAddr : String
  content : String
deriving DecidableEq

/-- One step of the SMTP client sequence in `try_send_email`. -/
inductive SmtpAction where
  | connect (host : String) (port : Int)
  | starttls
  | login (user : String) (password : String)
  | send_message (msg : EmailMessage)
deriving DecidableEq

/-- The SMTP server as an oracle: for each attempted step, `none` means the
step succeeds and `some e` means it raises an exception rendered as `e`. -/
def SmtpOracle : Type := SmtpAction → Option String

/-- Run a planned sequence of SMTP steps in order, stopping at the first
step that raises; returns the steps actually attempted and the exception
message, if any. -/
def runActions (o : SmtpOracle) : List SmtpAction → List SmtpAction × Option String
  | [] => ([], none)
  | a :: rest =>
      match o a with
      | some e => ([a], some e)
      | none =>
          let r := runActions o rest
          (a :: r.1, r.2)

/-- The configuration values read from the environment at the top of
`try_send_email` (main.py lines 84-89), with the source defaults. -/
structure SmtpSettings where
  smtp_host : Option String
  smtp_port_raw : String
  smtp_user : Option String
  smtp_pass : Option String
  smtp_from : String
  smtp_to : String
deriving DecidableEq

/-- `smtp_host = os.getenv("SMTP_HOST")` etc.: `SMTP_PORT` defaults to the
string `"587"`, `SMTP_FROM` to the submitter email, `SMTP_TO` to the fixed
address; user and password have no defaults. -/
def resolveSmtpSettings (env : Env) (payload : Contactmessage) : SmtpSettings :=
  { smtp_host := env "SMTP_HOST"
    smtp_port_raw := (env "SMTP_PORT").getD "587"
    smtp_user := env "SMTP_USER"
    smtp_pass := env "SMTP_PASS"
    smtp_from := (env "SMTP_FROM").getD payload.email
    smtp_to := (env "SMTP_TO").getD "studynotion.dev@gmail.com" }

/-- The `EmailMessage` constructed in `try_send_email` (main.py lines
98-106): subject falls back to `No subject` under Python `or`. -/
def buildMessage (payload : Contactmessage) (smtp_from smtp_to : String) : EmailMessage :=
  { subject := "New portfolio contact: " ++ pyOrStr payload.subject "No subject"
    fromAddr := smtp_from
    toAddr := smtp_to
    content := "Name: " ++ payload.name ++ "\nEmail: " ++ payload.email ++
      "\n\nMessage:\n" ++ payload.message ++ "\n" }

/-- The SMTP steps the `with smtplib.SMTP(...)` block performs in order:
connect, STARTTLS, login only when both credentials are truthy, then send. -/
def smtpActionPlan (host : String) (port : Int) (user password : Option String)
    (msg : EmailMessage) : List SmtpAction :=
  [SmtpAction.connect host port, SmtpAction.starttls] ++
  (match user, password with
   | some u, some p => if !u.isEmpty && !p.isEmpty then [SmtpAction.login u p] else []
   | _, _ => []) ++
  [SmtpAction.send_message msg]

/-- A Python exception escaping a modelled function. -/
inductive PyExc where
  | valueError (literal : String)
deriving DecidableEq

/-- `try_send_email` (main.py lines 77-115).  Returns the SMTP steps
attempted and either an uncaught exception (`int(os.getenv("SMTP_PORT",
"587"))` runs before the host check and outside the `try`) or the status
dict: not configured when the host is unset or empty, else `sent` true on a
clean run and `sent` false with the exception text otherwise. -/
def try_send_email (env : Env) (o : SmtpOracle) (payload : Contactmessage) :
    List SmtpAction × Except PyExc EmailStatus :=
  let s := resolveSmtpSettings env payload
  match pyInt s.smtp_port_raw with
  | none => ([], Except.error (PyExc.valueError s.smtp_port_raw))
  | some smtp_port =>
      if !pyTruthy s.smtp_host then
        ([], Except.ok { sent := some false, reason := some "SMTP not configured; skipped sending" })
      else
        let msg := buildMessage payload s.smtp_from s.smtp_to
        let run := runActions o
          (smtpActionPlan (s.smtp_host.getD "") smtp_port s.smtp_user s.smtp_pass msg)
        match run.2 with
        | none => (run.1, Except.ok { sent := some true, reason := none })
        | some e => (run.1, Except.ok { sent := some false, reason := some e })

/-- The document store `create_document` (database.py, external collaborator)
as an oracle: given collection name and payload it returns an id or raises. -/
def Store : Type := String → Contactmessage → Except String String

/-- The `ContactResponse` model returned by `/api/contact`. -/
structure ContactResponse where
  id : String
  emailed : Bool
  email_info : EmailStatus
deriving DecidableEq

/-- Outcome of one `/api/contact` request: a response, an `HTTPException`
raised by the handler, or an uncaught Python exception propagating out. -/
inductive ContactOutcome where
  | ok (r : ContactResponse)
  | httpException (statusCode : Nat) (detail : String)
  | uncaught (e : PyExc)
deriving DecidableEq

/-- `submit_contact` (main.py lines 124-135).  Persists first — a store
exception becomes `HTTPException(500, "Database error: ...")` — then calls
`try_send_email` and builds the response with `email_status.get("sent",
False)`.  Also returns whether the notifier was invoked and the SMTP trace. -/
def submit_contact (store : Store) (env : Env) (o : SmtpOracle)
    (payload : Contactmessage) : ContactOutcome × Bool × List SmtpAction :=
  match store "contactmessage" payload with
  | Except.error e =>
      (ContactOutcome.httpException 500 ("Database error: " ++ e), false, [])
  | Except.ok doc_id =>
      let es := try_send_email env o payload
      match es.2 with
      | Except.error exc => (ContactOutcome.uncaught exc, true, es.1)
      | Except.ok st =>
          (ContactOutcome.ok { id := doc_id, emailed := st.sent.getD false, email_info := st },
           true, es.1)

/-- The database handle `db` (database.py, external): its `name` attribute
when `hasattr` holds, and its `list_collection_names()` behaviour, which may
raise. -/
structure Db where
  nameAttr : Option String
  list_collection_names : Except String (List String)

/-- Outcome of `from database import db` inside `test_database`: the import
may raise `ImportError`, raise some other exception, or yield a handle that
is `None` or an actual `Db`. -/
inductive DbImport where
  | importError
  | exc (msg : String)
  | ok (db : Option Db)

/-- The response dict built by the `/test` handler. -/
structure TestResponse where
  backend : String
  database : String
  database_url : String
  database_name : String
  connection_status : String
  collections : List String
deriving DecidableEq

/-- `test_database` (main.py lines 34-74).  Every import or listing failure
is caught and rendered as a descriptive string (exception text truncated to
50 characters); collection names are sliced to the first ten; the
`database_url` and `database_name` fields are overwritten at the end from
the `DATABASE_URL` and `DATABASE_NAME` environment variables. -/
def test_database (world : DbImport) (env : Env) : TestResponse :=
  let dcc : String × String × List String :=
    match world with
    | DbImport.importError =>
        ("❌ Database module not found (run enable-database first)", "Not Connected", [])
    | DbImport.exc e =>
        ("❌ Error: " ++ pyTrunc e 50, "Not Connected", [])
    | DbImport.ok none =>
        ("⚠️  Available but not initialized", "Not Connected", [])
    | DbImport.ok (some db) =>
        match db.list_collection_names with
        | Except.ok l => ("✅ Connected & Working", "Connected", l.take 10)
        | Except.error e => ("⚠️  Connected but Error: " ++ pyTrunc e 50, "Connected", [])
  { backend := "✅ Running"
    database := dcc.1
    database_url := if pyTruthy (env "DATABASE_URL") then "✅ Set" else "❌ Not Set"
    database_name := if pyTruthy (env "DATABASE_NAME") then "✅ Set" else "❌ Not Set"
    connection_status := dcc.2.1
    collections := dcc.2.2 }

/-- A sample valid payload, as in the spec scenario. -/
def samplePayload : Contactmessage :=
  { name := "A", email := "a@x.com", subject := some "Hi", message := "hello" }

/-- The empty environment: every variable unset. -/
def envEmpty : Env := fun _ => none

/-- An always-succeeding SMTP server. -/
def oracleOk : SmtpOracle := fun _ => none

/-- Environment where only `SMTP_PORT` is set, to a non-numeric string. -/
def envPortAbc : Env := fun k => if k = "SMTP_PORT" then some "abc" else none

/-- Environment where only `SMTP_PORT` is set, to another non-numeric string. -/
def envPortXyz : Env := fun k => if k = "SMTP_PORT" then some "xyz" else none

/-- Environment with a host configured and everything else unset. -/
def envHostOnly : Env := fun k => if k = "SMTP_HOST" then some "smtp.example.com" else none

/-- A store that always succeeds with a fixed id. -/
def storeOk : Store := fun _ _ => Except.ok "doc-1"

/-- A store that always raises. -/
def storeBoom : Store := fun _ _ => Except.error "boom"

/-- Environment where only `SMTP_PORT` is set, to a third non-numeric string. -/
def envPort12x : Env := fun k => if k = "SMTP_PORT" then some "12x" else none

/-- Environment with host and both credentials configured. -/
def envCreds : Env := fun k =>
  if k = "SMTP_HOST" then some "smtp.example.com"
  else if k = "SMTP_USER" then some "u"
  else if k = "SMTP_PASS" then some "pw" else none

/-- The `detail` string carried by an `HTTPException` outcome, if any. -/
def ContactOutcome.detail : ContactOutcome → Option String
  | ContactOutcome.httpException _ d => some d
  | _ => none

/-- A sample database handle whose listing succeeds with two collections. -/
def dbSample : Db :=
  { nameAttr := some "mydb", list_collection_names := Except.ok ["a", "b"] }

/-- A sample import outcome: the handle above. -/
def worldSample : DbImport := DbImport.ok (some dbSample)

/-- The concrete response `/api/contact` produces for `samplePayload` with a
successful store and no SMTP configuration. -/
def rSample : ContactResponse :=
  { id := "doc-1", emailed := false,
    email_info := { sent := some false, reason := some "SMTP not configured; skipped sending" } }

/-- With a server that raises on no step, every planned step runs. -/
theorem runActions_all_ok (o : SmtpOracle) (hok : ∀ a, o a = none) (l : List SmtpAction) :
    runActions o l = (l, none) := by
  induction l with
  | nil => rfl
  | cons a rest ih => simp [runActions, hok a, ih]

/-- When the resolved port string does not parse, the `ValueError` from `int()` escapes before anything else happens. -/
theorem try_send_email_port_none (env : Env) (o : SmtpOracle) (p : Contactmessage)
    (h : pyInt ((env "SMTP_PORT").getD "587") = none) :
    try_send_email env o p =
      ([], Except.error (PyExc.valueError ((env "SMTP_PORT").getD "587"))) := by
  simp [try_send_email, resolveSmtpSettings, h]

/-- When the port parses and the host is unset or empty, the notifier skips with the fixed status dict. -/
theorem try_send_email_not_configured (env : Env) (o : SmtpOracle) (p : Contactmessage) (q : Int)
    (hq : pyInt ((env "SMTP_PORT").getD "587") = some q)
    (hh : pyTruthy (env "SMTP_HOST") = false) :
    try_send_email env o p =
      ([], Except.ok { sent := some false, reason := some "SMTP not configured; skipped sending" }) := by
  simp [try_send_email, resolveSmtpSettings, hq, hh]

/-- When the port parses and a nonempty host is set, the notifier runs the SMTP sequence and folds its outcome into the status dict. -/
theorem try_send_email_configured (env : Env) (o : SmtpOracle) (p : Contactmessage) (q : Int)
    (h : String) (hq : pyInt ((env "SMTP_PORT").getD "587") = some q)
    (hh : env "SMTP_HOST" = some h) (hne : h.isEmpty = false) :
    try_send_email env o p =
      (let msg := buildMessage p ((env "SMTP_FROM").getD p.email)
        ((env "SMTP_TO").getD "studynotion.dev@gmail.com")
       let run := runActions o (smtpActionPlan h q (env "SMTP_USER") (env "SMTP_PASS") msg)
       match run.2 with
       | none => (run.1, Except.ok { sent := some true, reason := none })
       | some e => (run.1, Except.ok { sent := some false, reason := some e })) := by
  simp [try_send_email, resolveSmtpSettings, hq, hh, pyTruthy, hne]

/-- With a fully successful server, the attempted steps are exactly the planned sequence. -/
theorem try_send_email_trace_all_ok (env : Env) (o : SmtpOracle) (p : Contactmessage) (q : Int)
    (h : String) (hh : env "SMTP_HOST" = some h) (hne : h.isEmpty = false)
    (hq : pyInt ((env "SMTP_PORT").getD "587") = some q)
    (hok : ∀ a, o a = none) :
    (try_send_email env o p).1 =
      smtpActionPlan h q (env "SMTP_USER") (env "SMTP_PASS")
        (buildMessage p ((env "SMTP_FROM").getD p.email)
          ((env "SMTP_TO").getD "studynotion.dev@gmail.com")) := by
  rw [try_send_email_configured env o p q h hq hh hne]
  simp [runActions_all_ok o hok]

/-- A truthy optional string is `some` of a nonempty string. -/
theorem pyTruthy_true_elim (x : Option String) (h : pyTruthy x = true) :
    ∃ s, x = some s ∧ s.isEmpty = false := by
  cases x with
  | none => simp [pyTruthy] at h
  | some s =>
      refine ⟨s, rfl, ?_⟩
      simpa [pyTruthy] using h

/-- Every status dict the notifier returns carries a `sent` key. -/
theorem try_send_email_ok_sent (env : Env) (o : SmtpOracle) (p : Contactmessage)
    (st : EmailStatus) (h : (try_send_email env o p).2 = Except.ok st) :
    ∃ b, st.sent = some b := by
  cases hp : pyInt ((env "SMTP_PORT").getD "587") with
  | none => rw [try_send_email_port_none env o p hp] at h; simp at h
  | some q =>
      by_cases hht : pyTruthy (env "SMTP_HOST") = true
      · obtain ⟨hs, hsome, hne⟩ := pyTruthy_true_elim _ hht
        rw [try_send_email_configured env o p q hs hp hsome hne] at h
        cases hrun : (runActions o (smtpActionPlan hs q (env "SMTP_USER") (env "SMTP_PASS")
            (buildMessage p ((env "SMTP_FROM").getD p.email)
              ((env "SMTP_TO").getD "studynotion.dev@gmail.com")))).2 with
        | none => simp [hrun] at h; exact ⟨true, by simp [← h]⟩
        | some e => simp [hrun] at h; exact ⟨false, by simp [← h]⟩
      · rw [try_send_email_not_configured env o p q hp (by simpa using hht)] at h
        simp at h
        exact ⟨false, by simp [← h]⟩

/-- The notifier propagates an exception only when the port string fails to parse. -/
theorem try_send_email_err_port (env : Env) (o : SmtpOracle) (p : Contactmessage)
    (exc : PyExc) (h : (try_send_email env o p).2 = Except.error exc) :
    pyInt ((env "SMTP_PORT").getD "587") = none := by
  cases hp : pyInt ((env "SMTP_PORT").getD "587") with
  | none => rfl
  | some q =>
      exfalso
      by_cases hht : pyTruthy (env "SMTP_HOST") = true
      · obtain ⟨hs, hsome, hne⟩ := pyTruthy_true_elim _ hht
        rw [try_send_email_configured env o p q hs hp hsome hne] at h
        cases hrun : (runActions o (smtpActionPlan hs q (env "SMTP_USER") (env "SMTP_PASS")
            (buildMessage p ((env "SMTP_FROM").getD p.email)
              ((env "SMTP_TO").getD "studynotion.dev@gmail.com")))).2 with
        | none => simp [hrun] at h
        | some e => simp [hrun] at h
      · rw [try_send_email_not_configured env o p q hp (by simpa using hht)] at h
        simp at h

/-- A store exception becomes `HTTPException(500)` with the full message and no notifier call. -/
theorem submit_contact_store_err (store : Store) (env : Env) (o : SmtpOracle)
    (p : Contactmessage) (e : String) (h : store "contactmessage" p = Except.error e) :
    submit_contact store env o p =
      (ContactOutcome.httpException 500 ("Database error: " ++ e), false, []) := by
  simp [submit_contact, h]

/-- A successful store write hands over to the notifier and builds the response from its status. -/
theorem submit_contact_store_ok (store : Store) (env : Env) (o : SmtpOracle)
    (p : Contactmessage) (d : String) (h : store "contactmessage" p = Except.ok d) :
    submit_contact store env o p =
      (match (try_send_email env o p).2 with
       | Except.error exc => (ContactOutcome.uncaught exc, true, (try_send_email env o p).1)
       | Except.ok st =>
          (ContactOutcome.ok { id := d, emailed := st.sent.getD false, email_info := st },
           true, (try_send_email env o p).1)) := by
  simp [submit_contact, h]







/-- C1: `try_send_email` is claimed total for every environment, but with
`SMTP_PORT="abc"` the `int()` call raises a `ValueError` instead of returning
a status dict, contradicting the claim and the docstring. -/
theorem try_send_email_bad_port_eval :
    try_send_email envPortAbc oracleOk samplePayload =
      ([], Except.error (PyExc.valueError "abc")) := rfl

/-- C2: with `SMTP_HOST` unset but `SMTP_PORT="xyz"`, `try_send_email` does
not return the "not configured" status: the eager `int()` parse raises first,
contradicting the claimed graceful skip. -/
theorem try_send_email_bad_port_host_unset_eval :
    envPortXyz "SMTP_HOST" = none ∧
    try_send_email envPortXyz oracleOk samplePayload =
      ([], Except.error (PyExc.valueError "xyz")) := ⟨rfl, rfl⟩

/-- C9: whenever `SMTP_PORT` is set to a string `int()` rejects, the call
raises `ValueError` with no SMTP step attempted, regardless of `SMTP_HOST`
and of the payload. -/
theorem try_send_email_port_parse_raises (env : Env) (o : SmtpOracle) (p : Contactmessage)
    (s : String) (hs : env "SMTP_PORT" = some s) (hbad : pyInt s = none) :
    try_send_email env o p = ([], Except.error (PyExc.valueError s)) := by
  have hg : (env "SMTP_PORT").getD "587" = s := by rw [hs]; rfl
  have h := try_send_email_port_none env o p (by rw [hg]; exact hbad)
  rw [hg] at h
  exact h

theorem try_send_email_port_parse_raises_witness :
    try_send_email envPort12x oracleOk samplePayload =
      ([], Except.error (PyExc.valueError "12x")) :=
  try_send_email_port_parse_raises envPort12x oracleOk samplePayload "12x" rfl (by decide)

/-- C3: the notifier is invoked if and only if the persistence call
succeeded; a store exception yields `HTTPException(500, "Database error:
...")` with no SMTP step attempted. -/
theorem submit_contact_email_iff_persisted (store : Store) (env : Env) (o : SmtpOracle)
    (p : Contactmessage) :
    ((submit_contact store env o p).2.1 = true ↔ ∃ d, store "contactmessage" p = Except.ok d) ∧
    (∀ e, store "contactmessage" p = Except.error e →
      submit_contact store env o p =
        (ContactOutcome.httpException 500 ("Database error: " ++ e), false, [])) := by
  constructor
  · constructor
    · intro htrue
      cases hst : store "contactmessage" p with
      | error e =>
          rw [submit_contact_store_err store env o p e hst] at htrue
          simp at htrue
      | ok d => exact ⟨d, rfl⟩
    · rintro ⟨d, hd⟩
      rw [submit_contact_store_ok store env o p d hd]
      cases hts : (try_send_email env o p).2 <;> simp [hts]
  · intro e he
    exact submit_contact_store_err store env o p e he

theorem submit_contact_email_iff_persisted_witness :
    submit_contact storeBoom envEmpty oracleOk samplePayload =
      (ContactOutcome.httpException 500 ("Database error: " ++ "boom"), false, []) ∧
    (submit_contact storeOk envEmpty oracleOk samplePayload).2.1 = true := by
  refine ⟨(submit_contact_email_iff_persisted storeBoom envEmpty oracleOk samplePayload).2 "boom" rfl, ?_⟩
  exact (submit_contact_email_iff_persisted storeOk envEmpty oracleOk samplePayload).1.mpr ⟨"doc-1", rfl⟩

/-- C4 counterexample: with a succeeding store but `SMTP_PORT="xyz"`,
`submit_contact` ends in an uncaught `ValueError`, not in a response. -/
theorem submit_contact_bad_port_no_response :
    storeOk "contactmessage" samplePayload = Except.ok "doc-1" ∧
    (submit_contact storeOk envPortXyz oracleOk samplePayload).1 =
      ContactOutcome.uncaught (PyExc.valueError "xyz") := ⟨rfl, rfl⟩

/-- C4 (amended): when the store succeeds with a nonempty id and the port
string parses, the response carries exactly that id, `emailed` equal to the
notifier status `sent` field, and the full status as `email_info`. -/
theorem submit_contact_success_response (store : Store) (env : Env) (o : SmtpOracle)
    (p : Contactmessage) (d : String) (q : Int)
    (hd : store "contactmessage" p = Except.ok d) (hne : d ≠ "")
    (hq : pyInt ((env "SMTP_PORT").getD "587") = some q) :
    ∃ st b, (try_send_email env o p).2 = Except.ok st ∧ st.sent = some b ∧
      (submit_contact store env o p).1 =
        ContactOutcome.ok { id := d, emailed := b, email_info := st } ∧ d ≠ "" := by
  cases hts : (try_send_email env o p).2 with
  | error exc =>
      exact absurd (try_send_email_err_port env o p exc hts) (by simp [hq])
  | ok st =>
      obtain ⟨b, hb⟩ := try_send_email_ok_sent env o p st hts
      refine ⟨st, b, rfl, hb, ?_, hne⟩
      rw [submit_contact_store_ok store env o p d hd]
      simp [hts, hb]

theorem submit_contact_success_response_witness :
    ∃ st b, (try_send_email envEmpty oracleOk samplePayload).2 = Except.ok st ∧ st.sent = some b ∧
      (submit_contact storeOk envEmpty oracleOk samplePayload).1 =
        ContactOutcome.ok { id := "doc-1", emailed := b, email_info := st } ∧ ("doc-1" : String) ≠ "" :=
  submit_contact_success_response storeOk envEmpty oracleOk samplePayload "doc-1" 587 rfl
    (by decide) (by decide)

/-- C5 counterexample: the `HTTPException` detail grows with the store
exception message — no length bound exists, so it is not truncated — and a
malformed `SMTP_PORT` also makes the request fail without a store failure. -/
theorem submit_contact_detail_unbounded :
    (¬ ∃ B : Nat, ∀ (e : String) (d : String),
        ContactOutcome.detail
          (submit_contact (fun _ _ => Except.error e) envEmpty oracleOk samplePayload).1 = some d →
        d.length ≤ B) ∧
    (submit_contact storeOk envPortAbc oracleOk samplePayload).1 =
      ContactOutcome.uncaught (PyExc.valueError "abc") := by
  constructor
  · rintro ⟨B, hB⟩
    have hd := hB (String.mk (List.replicate (B + 1) 'a')) _ rfl
    simp only [String.length_append, String.length_mk, List.length_replicate] at hd
    omega
  · rfl

/-- C5 (amended): a store exception surfaces as `HTTPException(500)` whose
detail is `"Database error: "` followed by the full untruncated message;
`HTTPException` arises only from store failure; the only other failure is
the uncaught `ValueError` from a malformed `SMTP_PORT`. -/
theorem submit_contact_error_surface (store : Store) (env : Env) (o : SmtpOracle)
    (p : Contactmessage) :
    (∀ e, store "contactmessage" p = Except.error e →
      (submit_contact store env o p).1 =
        ContactOutcome.httpException 500 ("Database error: " ++ e)) ∧
    (∀ s d, (submit_contact store env o p).1 = ContactOutcome.httpException s d →
      s = 500 ∧ ∃ e, store "contactmessage" p = Except.error e ∧ d = "Database error: " ++ e) ∧
    (∀ exc, (submit_contact store env o p).1 = ContactOutcome.uncaught exc →
      pyInt ((env "SMTP_PORT").getD "587") = none) := by
  refine ⟨?_, ?_, ?_⟩
  · intro e he
    rw [submit_contact_store_err store env o p e he]
  · intro s d hsd
    cases hst : store "contactmessage" p with
    | error e =>
        rw [submit_contact_store_err store env o p e hst] at hsd
        simp at hsd
        exact ⟨hsd.1.symm, e, rfl, hsd.2.symm⟩
    | ok dd =>
        rw [submit_contact_store_ok store env o p dd hst] at hsd
        cases hts : (try_send_email env o p).2 <;> simp [hts] at hsd
  · intro exc hexc
    cases hst : store "contactmessage" p with
    | error e =>
        rw [submit_contact_store_err store env o p e hst] at hexc
        simp at hexc
    | ok dd =>
        rw [submit_contact_store_ok store env o p dd hst] at hexc
        cases hts : (try_send_email env o p).2 with
        | error exc2 => exact try_send_email_err_port env o p exc2 hts
        | ok st => simp [hts] at hexc

theorem submit_contact_error_surface_witness :
    (submit_contact storeBoom envHostOnly oracleOk samplePayload).1 =
      ContactOutcome.httpException 500 ("Database error: " ++ "boom") :=
  (submit_contact_error_surface storeBoom envHostOnly oracleOk samplePayload).1 "boom" rfl

/-- C6: with a host configured, a parsing port and a cooperating server, the
attempted sequence is connect, STARTTLS, then login exactly when both
`SMTP_USER` and `SMTP_PASS` are present and nonempty, then send; a login
step occurs if and only if both credentials are truthy. -/
theorem try_send_email_smtp_sequence (env : Env) (o : SmtpOracle) (p : Contactmessage)
    (q : Int) (h : String)
    (hh : env "SMTP_HOST" = some h) (hne : h.isEmpty = false)
    (hq : pyInt ((env "SMTP_PORT").getD "587") = some q)
    (hok : ∀ a, o a = none) :
    (try_send_email env o p).1 =
      [SmtpAction.connect h q, SmtpAction.starttls] ++
      (match env "SMTP_USER", env "SMTP_PASS" with
       | some u, some pw => if !u.isEmpty && !pw.isEmpty then [SmtpAction.login u pw] else []
       | _, _ => []) ++
      [SmtpAction.send_message (buildMessage p ((env "SMTP_FROM").getD p.email)
        ((env "SMTP_TO").getD "studynotion.dev@gmail.com"))] ∧
    ((∃ u pw, SmtpAction.login u pw ∈ (try_send_email env o p).1) ↔
      (pyTruthy (env "SMTP_USER") && pyTruthy (env "SMTP_PASS")) = true) := by
  have htr := try_send_email_trace_all_ok env o p q h hh hne hq hok
  refine ⟨by rw [htr]; rfl, ?_⟩
  rw [htr]
  unfold smtpActionPlan
  cases hu : env "SMTP_USER" with
  | none => simp [pyTruthy]
  | some u =>
      cases hpw : env "SMTP_PASS" with
      | none => simp [pyTruthy]
      | some pw =>
          by_cases hcred : (!u.isEmpty && !pw.isEmpty) = true
          · simp [pyTruthy, hcred]
          · simp [pyTruthy, hcred]

theorem try_send_email_smtp_sequence_witness :
    (try_send_email envCreds oracleOk samplePayload).1 =
      [SmtpAction.connect "smtp.example.com" 587, SmtpAction.starttls,
       SmtpAction.login "u" "pw",
       SmtpAction.send_message
         (buildMessage samplePayload "a@x.com" "studynotion.dev@gmail.com")] := by
  have h := try_send_email_smtp_sequence envCreds oracleOk samplePayload 587 "smtp.example.com"
    rfl rfl (by decide) (fun _ => rfl)
  exact h.1.trans (by decide)

/-- C7: with `SMTP_PORT`, `SMTP_FROM`, `SMTP_TO` unset the resolved
configuration is port string `"587"` (parsing to 587 and used in the
connect step), From equal to the submitter email, and To equal to
`studynotion.dev@gmail.com`. -/
theorem try_send_email_env_defaults (env : Env) (o : SmtpOracle) (p : Contactmessage)
    (h : String) (hh : env "SMTP_HOST" = some h) (hne : h.isEmpty = false)
    (hport : env "SMTP_PORT" = none) (hfrom : env "SMTP_FROM" = none)
    (hto : env "SMTP_TO" = none) (hok : ∀ a, o a = none) :
    (resolveSmtpSettings env p).smtp_port_raw = "587" ∧
    (resolveSmtpSettings env p).smtp_from = p.email ∧
    (resolveSmtpSettings env p).smtp_to = "studynotion.dev@gmail.com" ∧
    (try_send_email env o p).1 =
      smtpActionPlan h 587 (env "SMTP_USER") (env "SMTP_PASS")
        (buildMessage p p.email "studynotion.dev@gmail.com") := by
  have hq : pyInt ((env "SMTP_PORT").getD "587") = some 587 := by rw [hport]; decide
  refine ⟨by simp [resolveSmtpSettings, hport], by simp [resolveSmtpSettings, hfrom],
    by simp [resolveSmtpSettings, hto], ?_⟩
  have htr := try_send_email_trace_all_ok env o p 587 h hh hne hq hok
  rw [htr, hfrom, hto]
  rfl

theorem try_send_email_env_defaults_witness :
    (resolveSmtpSettings envHostOnly samplePayload).smtp_port_raw = "587" ∧
    (resolveSmtpSettings envHostOnly samplePayload).smtp_from = samplePayload.email ∧
    (resolveSmtpSettings envHostOnly samplePayload).smtp_to = "studynotion.dev@gmail.com" ∧
    (try_send_email envHostOnly oracleOk samplePayload).1 =
      smtpActionPlan "smtp.example.com" 587 (envHostOnly "SMTP_USER") (envHostOnly "SMTP_PASS")
        (buildMessage samplePayload samplePayload.email "studynotion.dev@gmail.com") :=
  try_send_email_env_defaults envHostOnly oracleOk samplePayload "smtp.example.com"
    rfl rfl rfl rfl rfl (fun _ => rfl)

/-- C8: for every import outcome — module missing, import raising, handle
`None`, listing succeeding or raising — `test_database` returns a response
dict: at most ten collection names (exactly `take 10` on success), and each
failure rendered as a descriptive string with the exception text truncated
to 50 characters. -/
theorem test_database_total_and_bounded (world : DbImport) (env : Env) :
    (test_database world env).backend = "✅ Running" ∧
    (test_database world env).collections.length ≤ 10 ∧
    (∀ db l, world = DbImport.ok (some db) → db.list_collection_names = Except.ok l →
      (test_database world env).collections = l.take 10 ∧
      (test_database world env).database = "✅ Connected & Working") ∧
    (∀ e, world = DbImport.exc e →
      (test_database world env).database = "❌ Error: " ++ pyTrunc e 50) ∧
    (∀ db e, world = DbImport.ok (some db) → db.list_collection_names = Except.error e →
      (test_database world env).database = "⚠️  Connected but Error: " ++ pyTrunc e 50) := by
  refine ⟨rfl, ?_, ?_, ?_, ?_⟩
  · cases world with
    | importError => simp [test_database]
    | exc e => simp [test_database]
    | ok odb =>
        cases odb with
        | none => simp [test_database]
        | some db =>
            cases hl : db.list_collection_names with
            | ok l =>
                simp only [test_database, hl, List.length_take]
                omega
            | error e => simp [test_database, hl]
  · rintro db l rfl hl
    constructor <;> simp [test_database, hl]
  · rintro e rfl
    rfl
  · rintro db e rfl hl
    simp [test_database, hl]

theorem test_database_total_and_bounded_witness :
    (test_database worldSample envEmpty).backend = "✅ Running" ∧
    (test_database worldSample envEmpty).collections.length ≤ 10 ∧
    (test_database worldSample envEmpty).collections = ["a", "b"].take 10 ∧
    (test_database worldSample envEmpty).database = "✅ Connected & Working" := by
  have h := test_database_total_and_bounded worldSample envEmpty
  have h3 := h.2.2.1 dbSample ["a", "b"] rfl rfl
  exact ⟨h.1, h.2.1, h3.1, h3.2⟩

/-- C10: every successful `/api/contact` response satisfies `emailed =
email_info.get("sent", False)` — equal to the `sent` value when the key is
present and `false` when absent — and `email_info` is exactly the status
returned by `try_send_email`. -/
theorem submit_contact_emailed_invariant (store : Store) (env : Env) (o : SmtpOracle)
    (p : Contactmessage) (r : ContactResponse)
    (h : (submit_contact store env o p).1 = ContactOutcome.ok r) :
    r.emailed = r.email_info.sent.getD false ∧
    (∀ b, r.email_info.sent = some b → r.emailed = b) ∧
    (r.email_info.sent = none → r.emailed = false) ∧
    (try_send_email env o p).2 = Except.ok r.email_info := by
  cases hst : store "contactmessage" p with
  | error e =>
      rw [submit_contact_store_err store env o p e hst] at h
      simp at h
  | ok d =>
      rw [submit_contact_store_ok store env o p d hst] at h
      cases hts : (try_send_email env o p).2 with
      | error exc => simp [hts] at h
      | ok st =>
          simp only [hts] at h
          have hr : r = { id := d, emailed := st.sent.getD false, email_info := st } := by
            cases h
            rfl
          subst hr
          refine ⟨rfl, ?_, ?_, rfl⟩
          · intro b hb
            have hb' : st.sent = some b := hb
            simp [hb']
          · intro hb
            have hb' : st.sent = none := hb
            simp [hb']

theorem submit_contact_emailed_invariant_witness :
    rSample.emailed = rSample.email_info.sent.getD false ∧
    (try_send_email envEmpty oracleOk samplePayload).2 = Except.ok rSample.email_info := by
  have h := submit_contact_emailed_invariant storeOk envEmpty oracleOk samplePayload rSample rfl
  exact ⟨h.1, h.2.2.2⟩
